import Mathlib

/-
Verification of the cluster_service job-lifecycle engine.

The definitions below are a shallow embedding of the Python sources
cservice.py and whisper_service.py: pure fragments become Lean
functions, filesystem state is passed explicitly, subprocess execution is
an oracle parameter, and Python exceptions are `Except` values.  Loops
whose termination is in question are modelled with an explicit fuel
parameter; `none` at every fuel means the loop never exits.
-/

namespace ClusterService

/-! ## Submission template rendering

Embedding of Python `string.Template.safe_substitute` as used by
`ClusterService.self_submission` (cservice.py lines 183-188).  The
Python `Template` pattern recognises, after a dollar sign: a second
dollar sign (escape), an identifier of an ASCII letter or underscore
followed by letters, digits or underscores, or a braced identifier;
anything else is an invalid placeholder which `safe_substitute` leaves
in place.  Unknown identifiers are also left in place, and substitution
never raises. -/

/-- Character class for the first character of a template identifier
(ASCII letter or underscore, the first character of the Python
idpattern). -/
def isIdentStart (c : Char) : Bool :=
  c.isAlpha || c = '_'

/-- Character class for the remaining characters of a template
identifier (ASCII letter, digit or underscore). -/
def isIdentChar (c : Char) : Bool :=
  c.isAlphanum || c = '_'

/-- Scan an identifier from the head of the character list: the first
character must be an identifier-start character, then the longest run of
identifier characters is taken.  Returns the identifier and the rest. -/
def scanIdent : List Char → Option (List Char × List Char)
  | [] => none
  | c :: cs =>
    if isIdentStart c then some (c :: cs.takeWhile isIdentChar, cs.dropWhile isIdentChar)
    else none

/-- Lookup of a template variable by name among the mapping entries, in
order: the first binding of a name wins, mirroring a Python dict in
which entries written later by `update` are placed earlier here. -/
def lookupVar (vars : List (String × String)) (name : List Char) : Option String :=
  match vars with
  | [] => none
  | (k, v) :: rest => if k.data = name then some v else lookupVar rest name

/-- Fuel-driven scanner for `safe_substitute`.  Each recursive call
consumes at least one input character, so fuel `length + 1` always
suffices; the fuel-exhausted branch returns the remaining input
unchanged and is unreachable from the wrapper below. -/
def substGo (vars : List (String × String)) : Nat → List Char → List Char
  | 0, rest => rest
  | _ + 1, [] => []
  | fuel + 1, '$' :: rest =>
    match rest with
    | '$' :: rs => '$' :: substGo vars fuel rs
    | '{' :: rs =>
      match scanIdent rs with
      | some (name, rest1) =>
        match rest1 with
        | '}' :: rs1 =>
          match lookupVar vars name with
          | some v => v.data ++ substGo vars fuel rs1
          | none => '$' :: '{' :: (name ++ '}' :: substGo vars fuel rs1)
        | _ => '$' :: substGo vars fuel ('{' :: rs)
      | none => '$' :: substGo vars fuel ('{' :: rs)
    | _ =>
      match scanIdent rest with
      | some (name, rest1) =>
        match lookupVar vars name with
        | some v => v.data ++ substGo vars fuel rest1
        | none => '$' :: (name ++ substGo vars fuel rest1)
      | none => '$' :: substGo vars fuel rest
  | fuel + 1, c :: cs => c :: substGo vars fuel cs

/-- Total rendering of a template against the variable mapping, the
embedding of `Template(s).safe_substitute(vars)`: placeholders bound in
the mapping are replaced, unknown and invalid placeholders stay as
literal text. -/
def renderTemplate (vars : List (String × String)) (s : String) : String :=
  ⟨substGo vars (s.data.length + 1) s.data⟩

/-! ## Manifest filtering

Embedding of `Whisper.filter_jobdata` (whisper_service.py lines 14-20),
which iterates over a copy of the manifest list and, for each entry that
is truthy and whose completion marker file exists beside it, calls
`remove` on the live manifest, deleting the first occurrence.  Python
truthiness means an empty-string entry never satisfies the guard.
Completion-marker existence on disk is the predicate `mk` over paths. -/

/-- Path of the per-item completion marker beside a manifest item. -/
def markerPath (jobdir f : String) : String :=
  jobdir ++ "/" ++ f ++ ".whisper.json"

/-- Python `list.remove`: delete the first occurrence of `x`. -/
def removeFirst (x : String) : List String → List String
  | [] => []
  | y :: ys => if y = x then ys else y :: removeFirst x ys

/-- Iteration of `filter_jobdata` over a copy of the manifest: `fs` is
the copy being iterated, `m` the live manifest being mutated. -/
def filterLoop (mk : String → Bool) (jobdir : String) : List String → List String → List String
  | [], m => m
  | f :: fs, m =>
    if f ≠ "" ∧ mk (markerPath jobdir f) = true then
      filterLoop mk jobdir fs (removeFirst f m)
    else
      filterLoop mk jobdir fs m

/-- Manifest filtering of `Whisper.filter_jobdata`: iterate over a copy
of the manifest, removing each non-empty item whose completion marker
exists. -/
def filter_jobdata (mk : String → Bool) (jobdir : String) (manifest : List String) : List String :=
  filterLoop mk jobdir manifest manifest

/-! ## Discovery and the settle gate

Embedding of `ClusterService.get_todo_list` (cservice.py lines 140-178)
as run by the Whisper service.  A job subdirectory is a pair of its name
and the outcome of loading its whisper.job descriptor: `none` when
opening or parsing raised (any exception), `some raw` otherwise.
`raw.mtimeAge` is the descriptor file age, the wall clock minus the
last-modified stamp, in whole seconds. -/

/-- Parsed contents and file age of one job descriptor file. -/
structure RawJob where
  manifest : List String
  model : String
  mtimeAge : Nat
deriving Repr, DecidableEq

/-- One entry of the results list: the descriptor data updated with
`jobdir` and the derived `settled` flag (cservice.py lines 152-154). -/
structure JobData where
  jobdir : String
  manifest : List String
  model : String
  settled : Bool
deriving Repr, DecidableEq

/-- Python exceptions that the embedded code can raise. -/
inductive PyErr
  | attributeError (name : String)
deriving Repr, DecidableEq

/-- Warning message logged for an unreadable descriptor
(cservice.py line 149, without the exception detail). -/
def warnMsg (dir : String) : String :=
  "Cannot read " ++ dir ++ "/whisper.job"

/-- The discovery loop of `get_todo_list` (cservice.py lines 142-163).
`warnings` is the value of the `job_warnings` attribute of the service
object: `none` when the attribute was never assigned — the constructor
(cservice.py lines 42-44) sets only `JOB_SETTLE_TIME` and `workdir`, so
reading the attribute raises `AttributeError`.  Returns the results
list, the final warnings attribute and the warning log. -/
def discoverLoop (settle : Nat) (mk : String → Bool) :
    Option (List String) → List (String × Option RawJob) →
    Except PyErr (List JobData × Option (List String) × List String)
  | warnings, [] => .ok ([], warnings, [])
  | warnings, (dir, none) :: rest =>
    match warnings with
    | none => .error (.attributeError "job_warnings")
    | some ws =>
      if dir ∈ ws then
        discoverLoop settle mk (some ws) rest
      else
        match discoverLoop settle mk (some (dir :: ws)) rest with
        | .error e => .error e
        | .ok (res, w, logs) => .ok (res, w, warnMsg dir :: logs)
  | warnings, (dir, some raw) :: rest =>
    let settled : Bool := decide (raw.mtimeAge > settle)
    let manifest := filter_jobdata mk dir raw.manifest
    if manifest.isEmpty then
      discoverLoop settle mk warnings rest
    else
      match discoverLoop settle mk warnings rest with
      | .error e => .error e
      | .ok (res, w, logs) =>
        .ok ({ jobdir := dir, manifest := manifest, model := raw.model, settled := settled } :: res, w, logs)

/-- The settle-wait loop at the end of `get_todo_list` (cservice.py
lines 165-178): while the results list is non-empty and its settled
sublist is empty, sleep one settle duration and re-check; otherwise
return the full results list.  The loop body changes no state, so the
guard is re-evaluated over the unchanged results snapshot; `fuel`
counts loop iterations and `none` at every fuel means the loop never
exits.  Note the function returns the whole results list, not the
filtered settled sublist. -/
def settleWait : Nat → List JobData → Option (List JobData)
  | 0, _ => none
  | fuel + 1, results =>
    if results ≠ [] ∧ results.filter (fun x => x.settled) = [] then
      settleWait fuel results
    else
      some results

/-- Embedding of one call to `get_todo_list("whisper.job")`: discovery
over the glob results followed by the settle-wait loop.  The first
component of a successful result is `some results` when the loop exits
within `fuel` iterations and `none` when it never does. -/
def get_todo_list (fuel settle : Nat) (mk : String → Bool)
    (warnings : Option (List String)) (jobfiles : List (String × Option RawJob)) :
    Except PyErr (Option (List JobData) × Option (List String) × List String) :=
  match discoverLoop settle mk warnings jobfiles with
  | .error e => .error e
  | .ok (results, w, logs) => .ok (settleWait fuel results, w, logs)

/-! ## The work loop

Embedding of `Whisper.work` (whisper_service.py lines 23-91) and of the
tail of the continuation branch of `ClusterService.main` (cservice.py
lines 127-132), which deletes jobinfo.yaml after `work()` returns.
Transcription of one item either succeeds and writes the completion
marker of that item, or raises and is logged (whisper_service.py lines
44-82); the oracle `succeeds jobdir item` decides which.  Every item
the inner loop reaches is an invocation of the per-item work. -/

/-- On-disk world seen by the work loop: the job subdirectories with
their descriptors, the set of completion-marker paths present, and
whether jobinfo.yaml exists. -/
structure World where
  jobdirs : List (String × Option RawJob)
  markers : List String
  jobinfo : Bool
deriving Repr, DecidableEq

/-- The inner loop over the manifest items of one job: records the
invocation, and on success writes the completion marker and increments
the process count.  Returns the new marker set, the count of successful
items and the invocation list. -/
def processItems (succeeds : String → String → Bool) (jobdir : String) :
    List String → List String → List String × Nat × List (String × String)
  | [], markers => (markers, 0, [])
  | f :: fs, markers =>
    if succeeds jobdir f then
      match processItems succeeds jobdir fs (markerPath jobdir f :: markers) with
      | (m, c, inv) => (m, c + 1, (jobdir, f) :: inv)
    else
      match processItems succeeds jobdir fs markers with
      | (m, c, inv) => (m, c, (jobdir, f) :: inv)

/-- The loop over the todo list for one model name: jobs with a
different model are skipped (whisper_service.py lines 39-41). -/
def processJobs (succeeds : String → String → Bool) (modelName : String) :
    List JobData → List String → List String × Nat × List (String × String)
  | [], markers => (markers, 0, [])
  | t :: ts, markers =>
    if t.model = modelName then
      match processItems succeeds t.jobdir t.manifest markers with
      | (m1, c1, i1) =>
        match processJobs succeeds modelName ts m1 with
        | (m2, c2, i2) => (m2, c1 + c2, i1 ++ i2)
    else
      processJobs succeeds modelName ts markers

/-- The outer loop over the model names.  Python iterates the set of
models of the todo entries in unspecified order; it is modelled in
first-occurrence order, which the claims do not depend on. -/
def processModels (succeeds : String → String → Bool) :
    List String → List JobData → List String → List String × Nat × List (String × String)
  | [], _, markers => (markers, 0, [])
  | mn :: mns, todo, markers =>
    match processJobs succeeds mn todo markers with
    | (m1, c1, i1) =>
      match processModels succeeds mns todo m1 with
      | (m2, c2, i2) => (m2, c1 + c2, i1 ++ i2)

/-- One pass of the body of `Whisper.work` over the current todo
list. -/
def processPass (succeeds : String → String → Bool) (todo : List JobData)
    (markers : List String) : List String × Nat × List (String × String) :=
  processModels succeeds ((todo.map (fun x => x.model)).eraseDups) todo markers

/-- Embedding of `Whisper.work`: loop of `get_todo_list` and processing
passes.  Terminates (`some`) when the todo list comes back empty (queue
drained) or when a whole pass had a process count of zero; `none` means
the loop (or `get_todo_list` inside it) never returns within `fuel`
passes.  Returns the final world, the warnings attribute and all
per-item invocations. -/
def work (succeeds : String → String → Bool) (settle gfuel : Nat) :
    Nat → Option (List String) → World →
    Except PyErr (Option (World × Option (List String) × List (String × String)))
  | 0, _, _ => .ok none
  | fuel + 1, ws, w =>
    match get_todo_list gfuel settle (fun p => w.markers.contains p) ws w.jobdirs with
    | .error e => .error e
    | .ok (none, _, _) => .ok none
    | .ok (some todo, ws1, _) =>
      if todo.isEmpty then
        .ok (some (w, ws1, []))
      else
        match processPass succeeds todo w.markers with
        | (markers1, cnt, invs) =>
          let w1 : World := { w with markers := markers1 }
          if cnt = 0 then
            .ok (some (w1, ws1, invs))
          else
            match work succeeds settle gfuel fuel ws1 w1 with
            | .error e => .error e
            | .ok none => .ok none
            | .ok (some (w2, ws2, invs2)) => .ok (some (w2, ws2, invs ++ invs2))

/-- Tail of the continuation branch of `ClusterService.main` (lines
127-132): run `work()`, then unconditionally delete jobinfo.yaml.  An
exception from `work()` propagates (jobinfo is not deleted), and if
`work()` never returns the deletion is never reached. -/
def mainContinuation (succeeds : String → String → Bool) (settle gfuel fuel : Nat)
    (ws : Option (List String)) (w : World) : Except PyErr (Option World) :=
  match work succeeds settle gfuel fuel ws w with
  | .error e => .error e
  | .ok none => .ok none
  | .ok (some (w1, _, _)) => .ok (some { w1 with jobinfo := false })

/-! ## The fresh-launch submission race

Embedding of the non-continuation branch of `ClusterService.main`
(cservice.py lines 90-111) for two processes racing on the same working
directory.  Each process runs the same straight-line code; the shared
filesystem carries the lock file (created atomically with an exclusive
open, which raises `FileExistsError` when the file already exists) and
the jobinfo.yaml lifecycle record.  Each numbered program point performs
one filesystem access, so interleavings of the two processes at this
granularity cover the possible races.  Submission itself is taken to
succeed here; a failed submission terminates its caller with no record
written (see `self_submission` below). -/

/-- Program counter of one fresh-launch process: `start` is before the
exclusive open of submit.lock; `locked` is before the jobinfo.yaml
existence check; `submitting` is the submission command run;
`writing` is the jobinfo.yaml write; the two releasing states are the
unlink of submit.lock on the submitted and the already-active paths;
the three terminal states record the observed outcome, each reached by
calling exit with status 0. -/
inductive PC
  | start
  | locked
  | submitting
  | writing
  | releasingSub
  | releasingActive
  | doneSubmitted
  | doneActive
  | doneConflict
deriving Repr, DecidableEq, Fintype

/-- Shared filesystem and per-process bookkeeping for the race: whether
submit.lock and jobinfo.yaml exist, whether each process has run the
submission command, whether each process has created the lifecycle
record, and both program counters. -/
structure RaceState where
  lock : Bool
  jobinfo : Bool
  subA : Bool
  subB : Bool
  crA : Bool
  crB : Bool
  pcA : PC
  pcB : PC
deriving Repr, DecidableEq

/-- One step of one fresh-launch process, given the shared lock and
jobinfo flags and its program counter.  Returns the new shared flags,
the new program counter, and whether this step ran the submission
command and whether it created the lifecycle record.  Terminal states
stutter. -/
def procStep (lock jobinfo : Bool) (pc : PC) : Bool × Bool × PC × Bool × Bool :=
  match pc with
  | .start =>
    if lock then (lock, jobinfo, .doneConflict, false, false)
    else (true, jobinfo, .locked, false, false)
  | .locked =>
    if jobinfo then (lock, jobinfo, .releasingActive, false, false)
    else (lock, jobinfo, .submitting, false, false)
  | .submitting => (lock, jobinfo, .writing, true, false)
  | .writing => (lock, true, .releasingSub, false, true)
  | .releasingSub => (false, jobinfo, .doneSubmitted, false, false)
  | .releasingActive => (false, jobinfo, .doneActive, false, false)
  | .doneSubmitted => (lock, jobinfo, pc, false, false)
  | .doneActive => (lock, jobinfo, pc, false, false)
  | .doneConflict => (lock, jobinfo, pc, false, false)

/-- Interleaving step: `who = true` advances process A, `who = false`
advances process B. -/
def step (s : RaceState) (who : Bool) : RaceState :=
  if who then
    match procStep s.lock s.jobinfo s.pcA with
    | (l, j, pc, sub, cr) =>
      { s with lock := l, jobinfo := j, pcA := pc, subA := s.subA || sub, crA := s.crA || cr }
  else
    match procStep s.lock s.jobinfo s.pcB with
    | (l, j, pc, sub, cr) =>
      { s with lock := l, jobinfo := j, pcB := pc, subB := s.subB || sub, crB := s.crB || cr }

/-- Run a schedule of interleaved steps from a state. -/
def raceRun (s : RaceState) (sched : List Bool) : RaceState :=
  sched.foldl step s

/-- Initial state of the race: no lock file, jobinfo.yaml present or
absent, both processes at the exclusive open. -/
def initState (jobinfo0 : Bool) : RaceState :=
  { lock := false, jobinfo := jobinfo0, subA := false, subB := false,
    crA := false, crB := false, pcA := .start, pcB := .start }

/-- Program points at which a process holds the lock file it created. -/
def holdsLock (pc : PC) : Bool :=
  match pc with
  | .locked | .submitting | .writing | .releasingSub | .releasingActive => true
  | _ => false

/-- Program points reached only after running the submission command. -/
def pastSubmit (pc : PC) : Bool :=
  match pc with
  | .writing | .releasingSub | .doneSubmitted => true
  | _ => false

/-- Exit status of a process at a program point: terminated processes
exited with status 0, others have not exited. -/
def exitCodeOf (pc : PC) : Option Nat :=
  match pc with
  | .doneSubmitted | .doneActive | .doneConflict => some 0
  | _ => none

/-- Whether a program point is terminal. -/
def isDone (pc : PC) : Bool :=
  match pc with
  | .doneSubmitted | .doneActive | .doneConflict => true
  | _ => false

/-- Inductive invariant of the race: the lock file exists exactly while
some process holds it, at most one process holds it, a process at the
submission or record-write point sees jobinfo.yaml absent, the
submitted flag tracks the program counter, a created record implies
jobinfo.yaml exists, and at most one process submits or creates the
record. -/
def raceInv (s : RaceState) : Bool :=
  (s.lock = (holdsLock s.pcA || holdsLock s.pcB))
  && !(holdsLock s.pcA && holdsLock s.pcB)
  && (!(s.pcA = .submitting) || !s.jobinfo)
  && (!(s.pcB = .submitting) || !s.jobinfo)
  && (!(s.pcA = .writing) || !s.jobinfo)
  && (!(s.pcB = .writing) || !s.jobinfo)
  && (s.subA = pastSubmit s.pcA)
  && (s.subB = pastSubmit s.pcB)
  && (!s.crA || s.jobinfo)
  && (!s.crB || s.jobinfo)
  && (!(s.subA && s.subB))
  && (!(s.crA && s.crB))
  && (!(s.pcA = .releasingSub || s.pcA = .doneSubmitted) || s.crA)
  && (!(s.pcB = .releasingSub || s.pcB = .doneSubmitted) || s.crB)

/-! ## Lock release on every exit path

Embedding of the exit discipline of the fresh-launch path (cservice.py
lines 97-111).  Immediately after the exclusive open of submit.lock
succeeds, a cleanup handler unlinking the lock is registered with
`atexit`; the Python runtime runs such handlers on normal interpreter
shutdown, which includes returns, `exit(n)` (`SystemExit`) and uncaught
exceptions — the code never calls the bypassing primitives.  The body
of the locked section either completes normally (no-op or successful
submission, followed by the explicit unlink on line 108), terminates
early through the exit inside `self_submission`, or raises. -/

/-- Filesystem slice for the lock-release model. -/
structure LockWorld where
  lock : Bool
  jobinfo : Bool
deriving Repr, DecidableEq

/-- How the locked section ended. -/
inductive BodyEnd
  | completed
  | earlyExit (code : Nat)
  | raised
deriving Repr, DecidableEq

/-- The atexit handler registered on line 99: unlink submit.lock with
missing-ok semantics. -/
def atexitUnlinkLock (w : LockWorld) : LockWorld :=
  { w with lock := false }

/-- The locked section, entered right after the exclusive open created
submit.lock: when `interrupted` an exception is raised somewhere in the
body; otherwise an existing jobinfo.yaml makes it a no-op, a submission
with exit status 0 writes jobinfo.yaml, and a failing submission exits
the process with status 1 from inside `self_submission`.  On the two
normal paths line 108 unlinks the lock before exit. -/
def freshLaunchLocked (w0 : LockWorld) (rc : Int) (interrupted : Bool) :
    LockWorld × BodyEnd :=
  let w : LockWorld := { w0 with lock := true }
  if interrupted then (w, .raised)
  else if w.jobinfo then ({ w with lock := false }, .completed)
  else if rc = 0 then ({ w with jobinfo := true, lock := false }, .completed)
  else (w, .earlyExit 1)

/-- Process shutdown: whatever way the body ended, the registered
atexit handler runs before the interpreter exits. -/
def processExitState (p : LockWorld × BodyEnd) : LockWorld :=
  atexitUnlinkLock p.1

/-! ## Self submission

Embedding of `ClusterService.self_submission` (cservice.py lines
181-210).  The oracle `run cmd script` is `subprocess.run(cmd,
input=script, shell=True)` with captured output. -/

/-- Captured result of the submission command. -/
structure CmdOut where
  returncode : Int
  stdout : String
  stderr : String
deriving Repr, DecidableEq

/-- Lifecycle record contents (the jobinfo.yaml fields that matter
here). -/
structure JobInfo where
  debug : Bool
  continuation : Bool
  jobid : Option String
deriving Repr, DecidableEq

/-- Outcome of `self_submission`: either the process exits with the
given status (no record written), or the lifecycle record it writes. -/
inductive SubOutcome
  | exited (code : Nat) (logMsg : String)
  | submitted (record : JobInfo)
deriving Repr, DecidableEq

/-- Error message logged on a failing submission (cservice.py line 205):
the captured standard error is embedded in the message. -/
def submitFailMsg (rc : Int) (stderr : String) : String :=
  "Could not submit ourselves, rc " ++ toString rc ++ ": " ++ stderr

/-- The generated batch script (cservice.py lines 190-197): this same
executable, the working directory, the continuation flag and optionally
the debug flag, wrapped in a minimal shell script. -/
def slurmScript (mainFile wd : String) (debug : Bool) : String :=
  "#!/bin/bash\n" ++ mainFile ++ " " ++ wd ++ " --continuation"
    ++ (if debug then " --debug" else "") ++ "\nexit $?"

/-- The rendered submission command (cservice.py lines 184-188): the
stripped text of the .submit file run through safe substitution against
the workdir variable updated with the whole environment; an environment
variable named workdir would override the working-directory binding, so
the environment entries come first in the mapping. -/
def renderedSubmitCommand (submitText wd : String) (env : List (String × String)) : String :=
  renderTemplate (env ++ [("workdir", wd)]) submitText.trim

/-- Embedding of `self_submission`: render the command, build the
script, run the command; a non-zero exit status logs the captured
standard error and exits the process with status 1, otherwise the
trimmed standard output becomes the allocation id of the written
record. -/
def self_submission (submitText wd mainFile : String) (env : List (String × String))
    (run : String → String → CmdOut) (info : JobInfo) : SubOutcome :=
  let cmd := renderedSubmitCommand submitText wd env
  let script := slurmScript mainFile wd info.debug
  let p := run cmd script
  if p.returncode ≠ 0 then .exited 1 (submitFailMsg p.returncode p.stderr)
  else .submitted { info with jobid := some p.stdout.trim }

/-! ## Working-directory validation

Embedding of the sanity checks at the top of `ClusterService.main`
(cservice.py lines 64-82): the workdir must be a directory, and must
contain a .submit file; when .submit is missing, a sample file is
written only when .submit.sample is also absent, and the process exits
with status 1. -/

/-- Exact text written to .submit.sample (cservice.py lines 77-81). -/
def sampleSubmitText : String :=
  "sbatch --signal B:USR1@30 -D$workdir \\\n"
    ++ "   -e $workdir/stderr.out -o $workdir/stdout.out \\\n"
    ++ "   --open-mode=append --parsable \\\n"
    ++ "   --mail-type=ALL \\\n"
    ++ "   -p general\n"

/-- Filesystem slice for the validation model: whether the workdir is a
directory, and the files inside it by name. -/
structure WorkdirFS where
  isDir : Bool
  files : String → Option String

/-- The validation prefix of `main`: returns the exit status (`none`
when control proceeds past the checks) and the resulting filesystem. -/
def mainValidate (fs : WorkdirFS) : Option Nat × WorkdirFS :=
  if fs.isDir = false then (some 1, fs)
  else if (fs.files ".submit").isSome then (none, fs)
  else if (fs.files ".submit.sample").isSome then (some 1, fs)
  else
    (some 1,
      { fs with
          files := fun p => if p = ".submit.sample" then some sampleSubmitText else fs.files p })

/-! ## Helper lemmas -/

/-- Substitution of the empty character list is empty at any fuel. -/
theorem substGo_nil (vars : List (String × String)) (fuel : Nat) :
    substGo vars fuel [] = [] := by
  cases fuel <;> rfl

/-- Rendering a lone unknown placeholder leaves it as literal text. -/
theorem renderTemplate_unknown (vars : List (String × String)) (c : Char) (cs : List Char)
    (h1 : isIdentStart c = true) (h2 : ∀ x ∈ cs, isIdentChar x = true)
    (h3 : lookupVar vars (c :: cs) = none) :
    renderTemplate vars ⟨'$' :: c :: cs⟩ = ⟨'$' :: c :: cs⟩ := by
  have hc1 : c ≠ '$' := by rintro rfl; exact absurd h1 (by decide)
  have hc2 : c ≠ '{' := by rintro rfl; exact absurd h1 (by decide)
  have hscan : scanIdent (c :: cs) = some (c :: cs, []) := by
    simp [scanIdent, h1, List.takeWhile_eq_self_iff.2 h2, List.dropWhile_eq_nil_iff.2 h2]
  unfold renderTemplate
  show (⟨substGo vars (cs.length + 3) ('$' :: c :: cs)⟩ : String) = _
  rw [substGo]
  case x_3 => intro rs h; injection h with ha hb; exact hc1 ha
  case x_4 => intro rs h; injection h with ha hb; exact hc2 ha
  rw [hscan]
  simp [h3, substGo_nil]

/-- Deleting the first occurrence yields a sublist. -/
theorem removeFirst_sublist (x : String) (l : List String) :
    (removeFirst x l).Sublist l := by
  induction l with
  | nil => simp [removeFirst]
  | cons y ys ih =>
    by_cases h : y = x
    · simp [removeFirst, h]
    · simp only [removeFirst, if_neg h]
      exact List.Sublist.cons₂ y ih

/-- Deleting the first occurrence of another element preserves
membership. -/
theorem mem_removeFirst_of_ne {x y : String} (h : x ≠ y) (l : List String) :
    x ∈ removeFirst y l ↔ x ∈ l := by
  induction l with
  | nil => simp [removeFirst]
  | cons z zs ih =>
    by_cases hz : z = y
    · subst hz
      simp only [removeFirst, if_pos rfl, List.mem_cons]
      constructor
      · exact fun hx => Or.inr hx
      · rintro (rfl | hx)
        · exact absurd rfl h
        · exact hx
    · simp [removeFirst, hz, ih]

/-- Deleting the first occurrence decrements the occurrence count. -/
theorem count_removeFirst_self (x : String) (l : List String) :
    (removeFirst x l).count x = l.count x - 1 := by
  induction l with
  | nil => simp [removeFirst]
  | cons y ys ih =>
    by_cases h : y = x
    · simp [removeFirst, h, List.count_cons]
    · simp [removeFirst, h, List.count_cons, ih]

/-- Deleting the first occurrence of another element preserves the
count. -/
theorem count_removeFirst_ne {x y : String} (h : x ≠ y) (l : List String) :
    (removeFirst y l).count x = l.count x := by
  induction l with
  | nil => simp [removeFirst]
  | cons z zs ih =>
    by_cases hz : z = y
    · subst hz
      simp only [removeFirst, if_pos rfl, List.count_cons]
      have hzx : (z == x) = false := by
        simp only [beq_eq_false_iff_ne]
        exact fun hzx => h hzx.symm
      simp [hzx]
    · simp only [removeFirst, if_neg hz, List.count_cons, ih]

/-- The filtering loop only removes elements from the live manifest. -/
theorem filterLoop_sublist (mk : String → Bool) (jobdir : String)
    (fs m : List String) : (filterLoop mk jobdir fs m).Sublist m := by
  induction fs generalizing m with
  | nil => simp [filterLoop]
  | cons f fs ih =>
    by_cases h : f ≠ "" ∧ mk (markerPath jobdir f) = true
    · simp only [filterLoop, if_pos h]
      exact (ih (removeFirst f m)).trans (removeFirst_sublist f m)
    · simp only [filterLoop, if_neg h]
      exact ih m

/-- An element that does not satisfy the removal guard keeps its
membership through the filtering loop. -/
theorem mem_filterLoop_of_not_cond {mk : String → Bool} {jobdir f : String}
    (h : ¬(f ≠ "" ∧ mk (markerPath jobdir f) = true)) (fs m : List String) :
    f ∈ filterLoop mk jobdir fs m ↔ f ∈ m := by
  induction fs generalizing m with
  | nil => simp [filterLoop]
  | cons g gs ih =>
    by_cases hg : g ≠ "" ∧ mk (markerPath jobdir g) = true
    · have hfg : f ≠ g := by
        rintro rfl; exact h hg
      simp only [filterLoop, if_pos hg]
      rw [ih (removeFirst g m)]
      exact mem_removeFirst_of_ne hfg m
    · simp only [filterLoop, if_neg hg]
      exact ih m

/-- An element satisfying the removal guard is fully removed when the
live manifest holds no more of its occurrences than the iterated copy
still to visit. -/
theorem not_mem_filterLoop_of_cond {mk : String → Bool} {jobdir f : String}
    (hc : f ≠ "" ∧ mk (markerPath jobdir f) = true) (fs : List String) :
    ∀ m : List String, m.count f ≤ fs.count f → f ∉ filterLoop mk jobdir fs m := by
  induction fs with
  | nil =>
    intro m hcount
    simp only [List.count_nil, Nat.le_zero, List.count_eq_zero] at hcount
    simpa [filterLoop] using hcount
  | cons g gs ih =>
    intro m hcount
    by_cases hg : g ≠ "" ∧ mk (markerPath jobdir g) = true
    · simp only [filterLoop, if_pos hg]
      by_cases hfg : f = g
      · subst hfg
        apply ih
        rw [count_removeFirst_self]
        simp only [List.count_cons, beq_self_eq_true, if_true] at hcount
        omega
      · apply ih
        rw [count_removeFirst_ne hfg]
        simpa [List.count_cons, hfg] using hcount
    · simp only [filterLoop, if_neg hg]
      have hfg : f ≠ g := by
        rintro rfl; exact hg hc
      apply ih
      simpa [List.count_cons, hfg] using hcount

/-- Membership characterisation of manifest filtering: an item survives
exactly when it was present and is not a non-empty item whose marker
exists. -/
theorem filter_jobdata_mem (mk : String → Bool) (jobdir : String) (manifest : List String)
    (f : String) :
    f ∈ filter_jobdata mk jobdir manifest ↔
      (f ∈ manifest ∧ ¬(f ≠ "" ∧ mk (markerPath jobdir f) = true)) := by
  unfold filter_jobdata
  by_cases h : f ≠ "" ∧ mk (markerPath jobdir f) = true
  · constructor
    · intro hmem
      exact absurd hmem (not_mem_filterLoop_of_cond h manifest manifest (Nat.le_refl _))
    · rintro ⟨-, hnc⟩; exact absurd h hnc
  · rw [mem_filterLoop_of_not_cond h]
    exact ⟨fun hm => ⟨hm, h⟩, fun ⟨hm, _⟩ => hm⟩

/-- The settle-wait loop never exits when the unchanged results
snapshot is non-empty with no settled entry: the guard stays true at
every iteration. -/
theorem settleWait_stuck (results : List JobData)
    (h1 : results ≠ []) (h2 : results.filter (fun x => x.settled) = []) :
    ∀ fuel, settleWait fuel results = none := by
  intro fuel
  induction fuel with
  | zero => rfl
  | succ n ih => simp [settleWait, h1, h2, ih]

/-! ## Claim theorems -/

/-- C1: the claim says a JobUnit with a non-empty manifest whose
descriptor was modified less than the settle duration ago is never
handed to the per-item work callback.  The code violates this: the
settle loop computes the settled sublist but `get_todo_list` returns
the full results list (cservice.py line 178, contradicting the comment
on line 165), so once any one JobUnit is settled, unsettled JobUnits
are returned too and `work` processes their items.  Concretely, with a
settled job in directory a and a freshly modified job in directory b,
discovery returns the b JobUnit marked unsettled, and the work pass
invokes the callback on its item — the invocation list of `work`
contains the pair for directory b. -/
theorem unsettled_job_handed_to_callback :
    get_todo_list 1 300 (fun p => ([] : List String).contains p) (some [])
        [("a", some { manifest := ["x"], model := "m", mtimeAge := 1000 }),
         ("b", some { manifest := ["y"], model := "m", mtimeAge := 0 })]
      = .ok (some [{ jobdir := "a", manifest := ["x"], model := "m", settled := true },
                   { jobdir := "b", manifest := ["y"], model := "m", settled := false }],
             some [], [])
  ∧ work (fun _ _ => true) 300 1 3 (some [])
        { jobdirs := [("a", some { manifest := ["x"], model := "m", mtimeAge := 1000 }),
                      ("b", some { manifest := ["y"], model := "m", mtimeAge := 0 })],
          markers := [], jobinfo := true }
      = .ok (some
          ({ jobdirs := [("a", some { manifest := ["x"], model := "m", mtimeAge := 1000 }),
                         ("b", some { manifest := ["y"], model := "m", mtimeAge := 0 })],
             markers := ["b/y.whisper.json", "a/x.whisper.json"], jobinfo := true },
           some [], [("a", "x"), ("b", "y")]))
  ∧ ("b", "y") ∈ [("a", "x"), ("b", "y")] :=
  ⟨rfl, rfl, by decide⟩

/-- C2: the claim says that when discovery yields pending JobUnits but
none are settled, `get_todo_list` waits one settle duration, retries
and terminates, eventually returning settled work.  The code does wait
a full settle duration per iteration, but it re-evaluates the guard on
the unchanged in-memory results snapshot whose settled flags were fixed
at discovery time, so the loop never exits: at every fuel the call has
not returned.  The failing input is a single pending JobUnit whose
descriptor was modified just now. -/
theorem get_todo_list_never_settles (fuel : Nat) :
    get_todo_list fuel 300 (fun _ => false) (some [])
        [("j", some { manifest := ["x"], model := "m", mtimeAge := 0 })]
      = .ok (none, some [], []) := by
  have hd : discoverLoop 300 (fun _ => false) (some [])
        [("j", some { manifest := ["x"], model := "m", mtimeAge := 0 })]
      = .ok ([{ jobdir := "j", manifest := ["x"], model := "m", settled := false }],
             some [], []) := rfl
  have hs := settleWait_stuck
      [{ jobdir := "j", manifest := ["x"], model := "m", settled := false }]
      (by decide) (by decide) fuel
  simp [get_todo_list, hd, hs]

/-- C3: the claim says a job descriptor that cannot be read or parsed
is logged once per path through a seen-set, skipped, and never raises
out of `get_todo_list`.  The code violates this: the constructor of
`ClusterService` (cservice.py lines 42-44) never initialises the
`job_warnings` attribute that the exception handler reads on line 147,
so the first malformed descriptor raises `AttributeError` out of
`get_todo_list` instead of being logged and skipped. -/
theorem get_todo_list_missing_warnings_set :
    get_todo_list 1 300 (fun _ => false) none [("j", none)]
      = .error (.attributeError "job_warnings") :=
  rfl

/-- C6 counterexample: the claim says the lifecycle record is deleted
only when the job queue is fully drained, and that the work loop never
deletes it while pending JobUnits remain.  The code violates the
only-when direction: with a single settled JobUnit whose item always
fails to transcribe, the pass processes zero items, `work` breaks out,
and `main` still deletes jobinfo.yaml — while discovery on the final
world still finds the pending JobUnit. -/
theorem jobinfo_deleted_with_pending_jobs :
    mainContinuation (fun _ _ => false) 300 1 2 (some [])
        { jobdirs := [("j", some { manifest := ["x"], model := "m", mtimeAge := 1000 })],
          markers := [], jobinfo := true }
      = .ok (some { jobdirs := [("j", some { manifest := ["x"], model := "m", mtimeAge := 1000 })],
                    markers := [], jobinfo := false })
  ∧ get_todo_list 1 300 (fun p => ([] : List String).contains p) (some [])
        [("j", some { manifest := ["x"], model := "m", mtimeAge := 1000 })]
      = .ok (some [{ jobdir := "j", manifest := ["x"], model := "m", settled := true }],
             some [], []) :=
  ⟨rfl, rfl⟩

/-- C6 amended: whenever the continuation path terminates normally —
whether the queue drained or a whole pass processed zero items with
pending JobUnits remaining — the lifecycle record jobinfo.yaml is
deleted. -/
theorem mainContinuation_deletes_jobinfo
    (succeeds : String → String → Bool) (settle gfuel fuel : Nat)
    (ws : Option (List String)) (w w' : World)
    (h : mainContinuation succeeds settle gfuel fuel ws w = .ok (some w')) :
    w'.jobinfo = false := by
  unfold mainContinuation at h
  cases hw : work succeeds settle gfuel fuel ws w with
  | error e => rw [hw] at h; cases h
  | ok o =>
    rw [hw] at h
    cases o with
    | none => cases h
    | some triple =>
      obtain ⟨w1, ws2, invs⟩ := triple
      cases h
      rfl

/-- Witness for the C6 amended theorem at a drained queue. -/
theorem mainContinuation_deletes_jobinfo_witness :
    mainContinuation (fun _ _ => true) 300 1 1 (some [])
        { jobdirs := [], markers := [], jobinfo := true }
      = .ok (some { jobdirs := [], markers := [], jobinfo := false })
  ∧ ({ jobdirs := [], markers := [], jobinfo := false } : World).jobinfo = false :=
  ⟨rfl, mainContinuation_deletes_jobinfo (fun _ _ => true) 300 1 1 (some [])
        { jobdirs := [], markers := [], jobinfo := true }
        { jobdirs := [], markers := [], jobinfo := false } rfl⟩

/-- C7: on every exit path of the fresh-launch attempt after the lock
file was created — normal completion (no-op or submission), the early
exit with status 1 from a failed submission, or an exception — the
lock file is gone by the time the process exits: the atexit handler
registered right after the exclusive open unlinks it (and the normal
path additionally unlinks it explicitly). -/
theorem submit_lock_released_on_exit (w0 : LockWorld) (rc : Int) (interrupted : Bool) :
    (processExitState (freshLaunchLocked w0 rc interrupted)).lock = false :=
  rfl

/-- C8: template rendering substitutes the workdir and environment
placeholders and leaves an unknown placeholder as literal text, never
raising (the rendering function is total); the template for sbatch with
the workdir placeholder renders to the command with the working
directory substituted. -/
theorem renderTemplate_spec :
    renderTemplate [("workdir", "/jobs/run1")] "sbatch -D $workdir" = "sbatch -D /jobs/run1"
  ∧ ∀ (vars : List (String × String)) (c : Char) (cs : List Char),
      isIdentStart c = true → (∀ x ∈ cs, isIdentChar x = true) →
      lookupVar vars (c :: cs) = none →
      renderTemplate vars ⟨'$' :: c :: cs⟩ = ⟨'$' :: c :: cs⟩ :=
  ⟨by decide, renderTemplate_unknown⟩

/-- Witness for C8 at the unknown placeholder nonexistent. -/
theorem renderTemplate_spec_witness :
    (isIdentStart 'n' = true
     ∧ (∀ x ∈ ("onexistent".data), isIdentChar x = true)
     ∧ lookupVar [("workdir", "/jobs/run1")] ('n' :: "onexistent".data) = none)
  ∧ renderTemplate [("workdir", "/jobs/run1")] ⟨'$' :: 'n' :: "onexistent".data⟩
      = ⟨'$' :: 'n' :: "onexistent".data⟩ :=
  ⟨⟨by decide, by decide, by decide⟩,
   renderTemplate_spec.2 [("workdir", "/jobs/run1")] 'n' "onexistent".data
     (by decide) (by decide) (by decide)⟩

/-- C9 counterexample: the claim says filtering removes an item exactly
when its completion marker exists on disk.  The code guards the removal
with Python truthiness, so the empty-string item is never removed even
though its marker file exists beside it. -/
theorem filter_jobdata_empty_item_kept :
    filter_jobdata (fun p => decide (p = "j/.whisper.json")) "j" [""] = [""]
  ∧ (fun p => decide (p = "j/.whisper.json")) (markerPath "j" "") = true :=
  ⟨by decide, by decide⟩

/-- C9 amended: manifest filtering removes an item exactly when the
item is non-empty (truthy in Python) and its completion marker exists;
the result is always a sublist of the original manifest, so filtering
never adds or re-adds an item; and the scenario of a manifest of a and
b with a marker only for a filters to b alone. -/
theorem filter_jobdata_spec :
    (∀ (mk : String → Bool) (jobdir : String) (manifest : List String),
      (filter_jobdata mk jobdir manifest).Sublist manifest
      ∧ ∀ f, f ∈ filter_jobdata mk jobdir manifest ↔
          (f ∈ manifest ∧ ¬(f ≠ "" ∧ mk (markerPath jobdir f) = true)))
  ∧ filter_jobdata (fun p => decide (p = "j/a.whisper.json")) "j" ["a", "b"] = ["b"] :=
  ⟨fun mk jobdir manifest =>
    ⟨filterLoop_sublist mk jobdir manifest manifest,
     filter_jobdata_mem mk jobdir manifest⟩,
   by decide⟩

/-- C4: when the rendered submission command exits with a non-zero
status, `self_submission` logs a message embedding the captured
standard error, exits the process with status 1, does not retry (the
command runs once), and writes no lifecycle record. -/
theorem self_submission_failure (submitText wd mainFile : String)
    (env : List (String × String)) (run : String → String → CmdOut) (info : JobInfo)
    (h : (run (renderedSubmitCommand submitText wd env)
            (slurmScript mainFile wd info.debug)).returncode ≠ 0) :
    self_submission submitText wd mainFile env run info
      = .exited 1
          (submitFailMsg
            (run (renderedSubmitCommand submitText wd env)
              (slurmScript mainFile wd info.debug)).returncode
            (run (renderedSubmitCommand submitText wd env)
              (slurmScript mainFile wd info.debug)).stderr)
  ∧ (∀ rc stderr, submitFailMsg rc stderr
        = "Could not submit ourselves, rc " ++ toString rc ++ ": " ++ stderr)
  ∧ ∀ record : JobInfo,
      self_submission submitText wd mainFile env run info ≠ .submitted record := by
  refine ⟨?_, fun rc stderr => rfl, ?_⟩
  · simp [self_submission, h]
  · intro record
    simp [self_submission, h]

/-- Witness for C4 at the spec scenario: exit status 3 with standard
error text "no partition". -/
theorem self_submission_failure_witness :
    ((fun _ _ => ({ returncode := 3, stdout := "", stderr := "no partition" } : CmdOut))
        (renderedSubmitCommand "sbatch -D $workdir" "/jobs/run1" [])
        (slurmScript "/srv/whisper_service.py" "/jobs/run1" false)).returncode ≠ 0
  ∧ self_submission "sbatch -D $workdir" "/jobs/run1" "/srv/whisper_service.py" []
        (fun _ _ => { returncode := 3, stdout := "", stderr := "no partition" })
        { debug := false, continuation := false, jobid := none }
      = .exited 1 (submitFailMsg 3 "no partition") :=
  ⟨by decide,
   (self_submission_failure "sbatch -D $workdir" "/jobs/run1" "/srv/whisper_service.py" []
      (fun _ _ => { returncode := 3, stdout := "", stderr := "no partition" })
      { debug := false, continuation := false, jobid := none } (by decide)).1⟩

/-- Preservation of the race invariant by one interleaving step,
checked over the finite state space. -/
theorem raceInv_step_core :
    ∀ (l j sa sb ca cb : Bool) (pa pb : PC) (who : Bool),
      raceInv ⟨l, j, sa, sb, ca, cb, pa, pb⟩ = true →
      raceInv (step ⟨l, j, sa, sb, ca, cb, pa, pb⟩ who) = true := by
  decide

/-- Preservation of the race invariant, stated on the packed state. -/
theorem raceInv_step (s : RaceState) (who : Bool) (h : raceInv s = true) :
    raceInv (step s who) = true := by
  obtain ⟨l, j, sa, sb, ca, cb, pa, pb⟩ := s
  exact raceInv_step_core l j sa sb ca cb pa pb who h

/-- The race invariant holds initially, whether or not jobinfo.yaml
already exists. -/
theorem raceInv_init (jobinfo0 : Bool) : raceInv (initState jobinfo0) = true := by
  cases jobinfo0 <;> decide

/-- The race invariant holds after any schedule of interleaved steps. -/
theorem raceInv_run (sched : List Bool) :
    ∀ s : RaceState, raceInv s = true → raceInv (raceRun s sched) = true := by
  induction sched with
  | nil => intro s h; exact h
  | cons a t ih => intro s h; exact ih (step s a) (raceInv_step s a h)

/-- Consequence of the race invariant: at most one process submits and
at most one creates the record, checked over the finite state space. -/
theorem race_subs_core :
    ∀ (l j sa sb ca cb : Bool) (pa pb : PC),
      raceInv ⟨l, j, sa, sb, ca, cb, pa, pb⟩ = true →
      ¬(sa = true ∧ sb = true) ∧ ¬(ca = true ∧ cb = true) := by
  decide

/-- Every exit status a fresh-launch process can report is 0. -/
theorem exitCodeOf_zero : ∀ pc : PC, exitCodeOf pc = none ∨ exitCodeOf pc = some 0 := by
  decide

/-- Consequence of the race invariant: when process A has submitted, a
terminated process B observed already-active or conflict. -/
theorem race_second_core :
    ∀ (l j sa sb ca cb : Bool) (pa pb : PC),
      raceInv ⟨l, j, sa, sb, ca, cb, pa, pb⟩ = true →
      sa = true → isDone pb = true → pb = .doneActive ∨ pb = .doneConflict := by
  decide

/-- Consequence of the race invariant: when process B has submitted, a
terminated process A observed already-active or conflict. -/
theorem race_second_core_symm :
    ∀ (l j sa sb ca cb : Bool) (pa pb : PC),
      raceInv ⟨l, j, sa, sb, ca, cb, pa, pb⟩ = true →
      sb = true → isDone pa = true → pa = .doneActive ∨ pa = .doneConflict := by
  decide

/-- C5: for two fresh-launch processes racing on the same working
directory, under every interleaving at most one runs the submission
command and at most one creates the lifecycle record; every process
that has terminated exited with status 0; and when one process has
submitted, the other terminates observing either already-active or
conflict, never a duplicate submission. -/
theorem race_no_duplicate_submission (jobinfo0 : Bool) (sched : List Bool) :
    ¬((raceRun (initState jobinfo0) sched).subA = true
        ∧ (raceRun (initState jobinfo0) sched).subB = true)
  ∧ ¬((raceRun (initState jobinfo0) sched).crA = true
        ∧ (raceRun (initState jobinfo0) sched).crB = true)
  ∧ (exitCodeOf (raceRun (initState jobinfo0) sched).pcA = none
        ∨ exitCodeOf (raceRun (initState jobinfo0) sched).pcA = some 0)
  ∧ (exitCodeOf (raceRun (initState jobinfo0) sched).pcB = none
        ∨ exitCodeOf (raceRun (initState jobinfo0) sched).pcB = some 0)
  ∧ ((raceRun (initState jobinfo0) sched).subA = true →
        isDone (raceRun (initState jobinfo0) sched).pcB = true →
        (raceRun (initState jobinfo0) sched).pcB = .doneActive
          ∨ (raceRun (initState jobinfo0) sched).pcB = .doneConflict)
  ∧ ((raceRun (initState jobinfo0) sched).subB = true →
        isDone (raceRun (initState jobinfo0) sched).pcA = true →
        (raceRun (initState jobinfo0) sched).pcA = .doneActive
          ∨ (raceRun (initState jobinfo0) sched).pcA = .doneConflict) := by
  have h := raceInv_run sched (initState jobinfo0) (raceInv_init jobinfo0)
  generalize hgen : raceRun (initState jobinfo0) sched = f at h ⊢
  obtain ⟨l, j, sa, sb, ca, cb, pa, pb⟩ := f
  obtain ⟨h1, h2⟩ := race_subs_core l j sa sb ca cb pa pb h
  exact ⟨h1, h2, exitCodeOf_zero pa, exitCodeOf_zero pb,
         race_second_core l j sa sb ca cb pa pb h,
         race_second_core_symm l j sa sb ca cb pa pb h⟩

/-- Witness for C5: process A completes a full submission, then
process B runs and observes already-active. -/
theorem race_no_duplicate_submission_witness :
    ((raceRun (initState false) [true, true, true, true, true, false, false, false]).subA = true
     ∧ isDone (raceRun (initState false)
          [true, true, true, true, true, false, false, false]).pcB = true)
  ∧ ((raceRun (initState false) [true, true, true, true, true, false, false, false]).pcB
        = .doneActive
     ∨ (raceRun (initState false) [true, true, true, true, true, false, false, false]).pcB
        = .doneConflict) :=
  ⟨⟨by decide, by decide⟩,
   (race_no_duplicate_submission false
      [true, true, true, true, true, false, false, false]).2.2.2.2.1
      (by decide) (by decide)⟩

/-- C10: when the working directory is a directory without a .submit
file, `main` exits with status 1; it writes the sample .submit.sample
file only when that file is absent, leaves everything unchanged when
the sample is already present, and touches no file other than
.submit.sample in either case. -/
theorem mainValidate_missing_submit (fs : WorkdirFS)
    (hdir : fs.isDir = true) (hsub : fs.files ".submit" = none) :
    (mainValidate fs).1 = some 1
  ∧ (fs.files ".submit.sample" = none →
      (mainValidate fs).2.files ".submit.sample" = some sampleSubmitText)
  ∧ ((fs.files ".submit.sample").isSome = true →
      ∀ p, (mainValidate fs).2.files p = fs.files p)
  ∧ (∀ p, p ≠ ".submit.sample" → (mainValidate fs).2.files p = fs.files p)
  ∧ (mainValidate fs).2.isDir = fs.isDir := by
  have hnd : ¬(fs.isDir = false) := by simp [hdir]
  by_cases hsample : (fs.files ".submit.sample").isSome
  · have hm : mainValidate fs = (some 1, fs) := by
      simp [mainValidate, hnd, hsub, hsample]
    rw [hm]
    refine ⟨rfl, ?_, fun _ p => rfl, fun p _ => rfl, rfl⟩
    intro habs; rw [habs] at hsample; simp at hsample
  · have hm : mainValidate fs = (some 1,
        { fs with files := fun p =>
            if p = ".submit.sample" then some sampleSubmitText else fs.files p }) := by
      simp [mainValidate, hnd, hsub, hsample]
    rw [hm]
    refine ⟨rfl, fun _ => by simp, ?_, fun p hp => by simp [hp], rfl⟩
    intro hs; exact absurd hs hsample

/-- Witness for C10 at an empty working directory. -/
theorem mainValidate_missing_submit_witness :
    ((⟨true, fun _ => none⟩ : WorkdirFS).isDir = true
     ∧ (⟨true, fun _ => none⟩ : WorkdirFS).files ".submit" = none)
  ∧ (mainValidate ⟨true, fun _ => none⟩).1 = some 1 :=
  ⟨⟨rfl, rfl⟩, (mainValidate_missing_submit ⟨true, fun _ => none⟩ rfl rfl).1⟩

end ClusterService
